import Mathlib

/-!
Verification of the `AutoGrader` criterion-evaluation engine (`src/grader.py`).

The engine is embedded shallowly: Python strings become `String`, numeric
scores become `ℚ` (the structural score formulas of the source are exact in
`ℚ`), the external collaborators (the CPython `compile` builtin, the
`subprocess` execution of the submission, and the OpenAI chat call) are
modelled as deterministic oracle functions packaged in `Env`, and the Python
`dict` accesses `criterion['k']` / `criterion.get('k', d)` become `Except`
lookups / defaulted `Option` reads.  A `KeyError` escaping a function is an
`Except.error` carrying `str(KeyError(k)) = "'k'"`.
-/

namespace CodioGrader

/-! ### Character classes (Python `re` and `str` semantics, ASCII fragment) -/

/-- Python whitespace for `\s`, `str.strip()` and `str.split()`:
space, tab, newline, carriage return, vertical tab, form feed. -/
def pyIsSpace (c : Char) : Bool :=
  c = ' ' || c = '\t' || c = '\n' || c = '\r' || c = '\x0b' || c = '\x0c'

/-- Python `\w` (ASCII fragment): letters, digits, underscore. -/
def isWordChar (c : Char) : Bool :=
  c.isAlphanum || c = '_'

/-- Python `.` (no DOTALL): any character except newline. -/
def nonNewline (c : Char) : Bool :=
  c ≠ '\n'

/-! ### A small regular-expression engine

Just enough to embed the patterns of `grader.py` exactly: literals,
character classes, concatenation, alternation, and Kleene star over a
character class (which yields `+` as class-then-star). -/

inductive RE where
  | eps : RE
  | lit : Char → RE
  | cls : (Char → Bool) → RE
  | seq : RE → RE → RE
  | alt : RE → RE → RE
  | star : (Char → Bool) → RE

/-- Match zero or more characters of class `p`, then hand the rest to the
continuation `k`; succeeds if any split does. -/
def matchStar (p : Char → Bool) (k : List Char → Bool) : List Char → Bool
  | [] => k []
  | c :: cs => k (c :: cs) || (p c && matchStar p k cs)

/-- Match `r` against a prefix of the input, handing the remainder to the
continuation `k`; succeeds if some way of matching does. -/
def matchFrom : RE → List Char → (List Char → Bool) → Bool
  | .eps, cs, k => k cs
  | .lit _, [], _ => false
  | .lit c, x :: xs, k => x = c && k xs
  | .cls _, [], _ => false
  | .cls p, x :: xs, k => p x && k xs
  | .seq r1 r2, cs, k => matchFrom r1 cs (fun ys => matchFrom r2 ys k)
  | .alt r1 r2, cs, k => matchFrom r1 cs k || matchFrom r2 cs k
  | .star p, cs, k => matchStar p k cs

/-- `re.search`: the pattern matches starting at some position. -/
def reSearch (r : RE) (s : String) : Bool :=
  let cs := s.toList
  (List.range (cs.length + 1)).any fun i => matchFrom r (cs.drop i) (fun _ => true)

/-- A sequence of literal characters, continued by `r`. -/
def reLits : List Char → RE → RE
  | [], r => r
  | c :: cs, r => .seq (.lit c) (reLits cs r)

/-- `\s+` continued by `r`. -/
def wsPlus (r : RE) : RE := .seq (.cls pyIsSpace) (.seq (.star pyIsSpace) r)

/-- `.+` continued by `r`. -/
def dotPlus (r : RE) : RE := .seq (.cls nonNewline) (.seq (.star nonNewline) r)

/-- `\w+` continued by `r`. -/
def wordPlus (r : RE) : RE := .seq (.cls isWordChar) (.seq (.star isWordChar) r)

/-- `r'def\s+\w+\s*\('` (grader.py line 180). -/
def reFuncDef : RE :=
  reLits ['d', 'e', 'f'] (wsPlus (wordPlus (.seq (.star pyIsSpace) (.lit '('))))

/-- `r'while\s+.+:'` (grader.py line 185). -/
def reWhile : RE :=
  reLits ['w', 'h', 'i', 'l', 'e'] (wsPlus (dotPlus (.lit ':')))

/-- `r'for\s+.+\s+in\s+.+:'` (grader.py line 190). -/
def reFor : RE :=
  reLits ['f', 'o', 'r'] (wsPlus (dotPlus (wsPlus (reLits ['i', 'n'] (wsPlus (dotPlus (.lit ':')))))))

/-- `r'if\s+.+:'` (grader.py line 195). -/
def reIf : RE :=
  reLits ['i', 'f'] (wsPlus (dotPlus (.lit ':')))

/-- `r'from\s+microbit\s+import'` (grader.py line 223). -/
def reMicrobitImport : RE :=
  reLits ['f', 'r', 'o', 'm']
    (wsPlus (reLits ['m', 'i', 'c', 'r', 'o', 'b', 'i', 't']
      (wsPlus (reLits ['i', 'm', 'p', 'o', 'r', 't'] .eps))))

/-- `r'display\.(show|scroll|get_pixel|set_pixel)'` (grader.py line 229). -/
def reDisplayImage : RE :=
  reLits ['d', 'i', 's', 'p', 'l', 'a', 'y', '.']
    (.alt (reLits ['s', 'h', 'o', 'w'] .eps)
      (.alt (reLits ['s', 'c', 'r', 'o', 'l', 'l'] .eps)
        (.alt (reLits ['g', 'e', 't', '_', 'p', 'i', 'x', 'e', 'l'] .eps)
          (reLits ['s', 'e', 't', '_', 'p', 'i', 'x', 'e', 'l'] .eps))))

/-- `r'button_(a|b)\.(was_pressed|is_pressed|get_presses)'` (grader.py line 235). -/
def reButtonInput : RE :=
  reLits ['b', 'u', 't', 't', 'o', 'n', '_']
    (.seq (.alt (.lit 'a') (.lit 'b'))
      (reLits ['.']
        (.alt (reLits ['w', 'a', 's', '_', 'p', 'r', 'e', 's', 's', 'e', 'd'] .eps)
          (.alt (reLits ['i', 's', '_', 'p', 'r', 'e', 's', 's', 'e', 'd'] .eps)
            (reLits ['g', 'e', 't', '_', 'p', 'r', 'e', 's', 's', 'e', 's'] .eps)))))

/-! ### Python string helpers -/

/-- `str.strip()` on a character list. -/
def stripList (cs : List Char) : List Char :=
  ((cs.dropWhile pyIsSpace).reverse.dropWhile pyIsSpace).reverse

/-- `str.strip()`. -/
def pyStrip (s : String) : String :=
  String.mk (stripList s.toList)

/-- Helper for `str.split()`: accumulate the current word (reversed). -/
def splitAux : List Char → List Char → List (List Char)
  | [], acc => if acc = [] then [] else [acc.reverse]
  | c :: cs, acc =>
    if pyIsSpace c then
      if acc = [] then splitAux cs [] else acc.reverse :: splitAux cs []
    else
      splitAux cs (c :: acc)

/-- `str.split()` with no argument: split on whitespace runs, no empty words. -/
def pySplit (s : String) : List String :=
  (splitAux s.toList []).map String.mk

/-- Python substring test `needle in hay`. -/
def pyContains (hay needle : String) : Bool :=
  let h := hay.toList
  let n := needle.toList
  (List.range (h.length + 1)).any fun i => n.isPrefixOf (h.drop i)

/-- `len(set(ws))`: number of distinct words. -/
def setSize (ws : List String) : Nat :=
  ws.dedup.length

/-- `len(set(a) & set(b))`: number of distinct common words. -/
def interSize (a b : List String) : Nat :=
  (a.dedup.filter (fun w => w ∈ b)).length

/-! ### Data model -/

/-- One rubric criterion, as read from the JSON configuration.  A field that
the configuration may omit is an `Option`; `required_elements` and
`partial_credit` are only ever read through `criterion.get(k, default)`, so
they carry their Python defaults `[]` and `False` directly. -/
structure Criterion where
  description : Option String
  ctype : Option String
  points : Option ℚ
  required_elements : List String
  expected : Option String
  partial_credit : Bool
  system_prompt : Option String
deriving DecidableEq

/-- The dictionary produced by `AutoGrader._evaluate_criterion`. -/
structure CriterionResult where
  score : ℚ
  feedback : String
  max_points : ℚ
deriving DecidableEq

/-- Outcome of `subprocess.run(['python3', 'temp_code.py'], ..., timeout=5)`:
the child ran to completion with this standard output (return code and
standard error are ignored by the grader), the 5-second timeout fired
(`subprocess.TimeoutExpired`), or the call itself raised. -/
inductive ExecOutcome where
  | ran (stdout : String)
  | timeout
  | failed (msg : String)
deriving DecidableEq

/-- The external collaborators, modelled as deterministic oracle functions:
the CPython `compile(code, '<string>', 'exec')` builtin, the subprocess
execution of the submission, and the chat-completion call
`(system_prompt, code) ↦ response text` (or a transport error). -/
structure Env where
  pyCompile : String → Except String Unit
  runProgram : String → ExecOutcome
  aiRespond : String → String → Except String String

/-- Python `d['k']`: the value, or a `KeyError` whose `str` is `'k'`. -/
def dictGet {α : Type} (o : Option α) (key : String) : Except String α :=
  match o with
  | some v => .ok v
  | none => .error ("'" ++ key ++ "'")

/-! ### The evaluation strategies (grader.py lines 95-311) -/

/-- Decimal value of a digit run, as `float(...)` reads the integer part. -/
def digitsVal (ds : List Char) : Nat :=
  ds.foldl (fun n c => 10 * n + (c.toNat - 48)) 0

/-- Extract the score and feedback from an oracle response
(grader.py lines 129-140): `re.match` of `^\s*(\d+(\.\d+)?)` takes the
longest run of leading whitespace, then the longest run of digits, then an
optional decimal point with a longest nonempty run of digits; on a match the
number is the score and the text after the match, stripped, is the feedback,
otherwise the score is 0 and the response is kept whole. -/
def parseScoreFeedback (resp : String) : ℚ × String :=
  let rest := resp.toList.dropWhile pyIsSpace
  let ds := rest.takeWhile Char.isDigit
  if ds = [] then
    (0, resp)
  else
    let rest2 := rest.drop ds.length
    match rest2 with
    | c :: r3 =>
      if c = '.' then
        let fs := r3.takeWhile Char.isDigit
        if fs = [] then
          ((digitsVal ds : ℚ), String.mk (stripList rest2))
        else
          ((digitsVal ds : ℚ) + (digitsVal fs : ℚ) / (10 : ℚ) ^ fs.length,
            String.mk (stripList (r3.drop fs.length)))
      else
        ((digitsVal ds : ℚ), String.mk (stripList rest2))
    | [] =>
      ((digitsVal ds : ℚ), String.mk (stripList rest2))

/-- `AutoGrader._ai_review` (grader.py lines 95-145): ask the oracle, parse
the leading score; any failure is caught and reported as score 0. -/
def ai_review (env : Env) (c : Criterion) (code : String) : ℚ × String :=
  let sp := c.system_prompt.getD "You are a teacher evaluating student code."
  match env.aiRespond sp code with
  | .error e => (0, "AI review failed: " ++ e)
  | .ok resp => parseScoreFeedback resp

/-- The `if/elif` chain over element names inside the loop of
`AutoGrader._check_python_syntax` (grader.py lines 178-199): `some b` when
the name has a detector that reports `b`, `none` for an unrecognized name. -/
def pySyntaxDetect (element : String) (code : String) : Option Bool :=
  if element = "function_definition" then some (reSearch reFuncDef code)
  else if element = "while_loop" then some (reSearch reWhile code)
  else if element = "for_loop" then some (reSearch reFor code)
  else if element = "if_statement" then some (reSearch reIf code)
  else none

/-- The loop of `AutoGrader._check_python_syntax` (grader.py lines 178-199):
walk `required_elements` in order, appending each recognized element to
`found_elements` or `missing_elements`; unrecognized names fall through. -/
def collectElements (code : String) (elems : List String) : List String × List String :=
  elems.foldl
    (fun fm e =>
      match pySyntaxDetect e code with
      | some true => (fm.1 ++ [e], fm.2)
      | some false => (fm.1, fm.2 ++ [e])
      | none => fm)
    ([], [])

/-- `AutoGrader._check_python_syntax` (grader.py lines 165-213).  An
`Except.error` is an exception escaping the method (a `KeyError` from
`criterion['points']`), to be caught by `_check_syntax`. -/
def checkPythonSyntax (env : Env) (c : Criterion) (code : String) :
    Except String (ℚ × String) :=
  match env.pyCompile code with
  | .error e => .ok (0, "Syntax error: " ++ e)
  | .ok _ =>
    let required := c.required_elements
    let fm := collectElements code required
    match dictGet c.points "points" with
    | .error e => .error e
    | .ok p =>
      let score : ℚ :=
        if required = [] then p
        else ((fm.1.length : ℚ) / (required.length : ℚ)) * p
      let feedback :=
        if fm.2 ≠ [] then "Missing required elements: " ++ String.intercalate ", " fm.2
        else "All required elements found"
      .ok (score, feedback)

/-- The fixed-order membership checks of `AutoGrader._check_microbit_syntax`
(grader.py lines 221-238): each known name is tested only when it occurs in
`required_elements`. -/
def microbitDetect (element : String) (code : String) : Bool :=
  if element = "microbit_import" then reSearch reMicrobitImport code
  else if element = "display_image" then reSearch reDisplayImage code
  else reSearch reButtonInput code

/-- `AutoGrader._check_microbit_syntax` (grader.py lines 215-252).  Unlike
the Python-syntax loop, the three known names are probed in a fixed order,
each only if it is a member of `required_elements`. -/
def checkMicrobitSyntax (c : Criterion) (code : String) :
    Except String (ℚ × String) :=
  let required := c.required_elements
  let known := ["microbit_import", "display_image", "button_input"]
  let found := known.filter (fun e => decide (e ∈ required) && microbitDetect e code)
  let missing := known.filter (fun e => decide (e ∈ required) && ! microbitDetect e code)
  match dictGet c.points "points" with
  | .error e => .error e
  | .ok p =>
    let score : ℚ :=
      if required = [] then p
      else ((found.length : ℚ) / (required.length : ℚ)) * p
    let feedback :=
      if missing ≠ [] then "Missing required Microbit elements: " ++ String.intercalate ", " missing
      else "All required Microbit elements found"
    .ok (score, feedback)

/-- `AutoGrader._check_syntax` (grader.py lines 147-163): dispatch on the
criterion type; any exception from the inner checkers is caught and reported
as score 0 with the exception text. -/
def checkSyntax (env : Env) (c : Criterion) (code : String) : ℚ × String :=
  let inner : Except String (ℚ × String) :=
    match dictGet c.ctype "type" with
    | .error e => .error e
    | .ok t =>
      if t = "python_syntax" then checkPythonSyntax env c code
      else if t = "microbit_blocks" then checkMicrobitSyntax c code
      else if t = "scratch_blocks" then .ok (0, "Scratch syntax checking not implemented")
      else .ok (0, "Unknown syntax check type: " ++ t)
  match inner with
  | .ok r => r
  | .error e => (0, "Syntax check failed: " ++ e)

/-- The similarity heuristic of `AutoGrader._check_output`
(grader.py lines 280-299), computed on the already-stripped strings:
length-difference ratio, boosted to at least 0.8 when the expected text is a
substring of the actual output, then boosted to the distinct-word overlap
when both word sets are nonempty; 0 when both strings are empty. -/
def similarityOf (actual expected : String) : ℚ :=
  let maxLen := max actual.length expected.length
  if maxLen = 0 then 0
  else
    let ratio : ℚ :=
      1 - ((Int.natAbs ((actual.length : ℤ) - (expected.length : ℤ)) : ℚ) / (maxLen : ℚ))
    let s1 := if pyContains actual expected then max ratio (4 / 5) else ratio
    let ew := pySplit expected
    let aw := pySplit actual
    if ew ≠ [] && aw ≠ [] then max s1 ((interSize ew aw : ℚ) / (setSize ew : ℚ))
    else s1

/-- `AutoGrader._check_output` (grader.py lines 254-311).  The returned
`Bool` records whether `temp_code.py` is still on disk afterwards: the
source removes it only on the path where `subprocess.run` returns normally
(line 270 runs before the comparison; the `except` clauses for the timeout
and for any other error return without reaching it). -/
def check_output (env : Env) (c : Criterion) (code : String) : (ℚ × String) × Bool :=
  match env.runProgram code with
  | .timeout => ((0, "Code execution timed out"), true)
  | .failed m => ((0, "Failed to check output: " ++ m), true)
  | .ran stdout =>
    let inner : Except String (ℚ × String) :=
      let actual := pyStrip stdout
      let expected := pyStrip (c.expected.getD "")
      if actual = expected then
        match dictGet c.points "points" with
        | .error e => .error e
        | .ok p => .ok (p, "Output matches expected result")
      else if c.partial_credit then
        match dictGet c.points "points" with
        | .error e => .error e
        | .ok p =>
          .ok (similarityOf actual expected * p,
            "Output partially matches. Expected: '" ++ expected ++ "', Got: '" ++ actual ++ "'")
      else
        .ok (0, "Output does not match. Expected: '" ++ expected ++ "', Got: '" ++ actual ++ "'")
    match inner with
    | .ok r => (r, false)
    | .error e => ((0, "Failed to check output: " ++ e), false)

/-! ### The criterion evaluator (grader.py lines 70-93) -/

/-- Line 87 of grader.py: `score = min(score, criterion['points'])`. -/
def capScore (score pts : ℚ) : ℚ :=
  min score pts

/-- `AutoGrader._evaluate_criterion` (grader.py lines 70-93).  The method has
no `try/except` of its own, so a `KeyError` raised by `criterion['description']`
(the logging f-string on line 75), `criterion['type']` (line 77) or
`criterion['points']` (line 87) escapes to the caller as an `Except.error`.
The `Bool` records whether this evaluation left `temp_code.py` behind. -/
def evaluate_criterion (env : Env) (c : Criterion) (code : String) :
    Except String CriterionResult × Bool :=
  match dictGet c.description "description" with
  | .error e => (.error e, false)
  | .ok _ =>
    match dictGet c.ctype "type" with
    | .error e => (.error e, false)
    | .ok t =>
      let sfb : (ℚ × String) × Bool :=
        if t = "ai_review" then (ai_review env c code, false)
        else if t = "python_syntax" || t = "microbit_blocks" || t = "scratch_blocks" then
          (checkSyntax env c code, false)
        else if t = "output_match" then check_output env c code
        else ((0, "Unknown criterion type: " ++ t), false)
      match dictGet c.points "points" with
      | .error e => (.error e, sfb.2)
      | .ok p => (.ok ⟨capScore sfb.1.1 p, sfb.1.2, p⟩, sfb.2)

/-! ### The grading report -/

/-- The aggregate a grading run produces. -/
structure GradingReport where
  results : List CriterionResult
  total_score : ℚ
  total_possible : ℚ
deriving DecidableEq

/-- Modelled from the spec: the report-building loop of the Scoring Engine is
not present under `src/` (the `AutoGrader` source is cut off inside
`_post_to_notion`, before any method that iterates over the criteria).
Following spec section 4.1, an error thrown out of the per-criterion
evaluator is caught, awarding 0 and recording the failure reason. -/
def resultOfRun (env : Env) (c : Criterion) (code : String) : CriterionResult :=
  match (evaluate_criterion env c code).1 with
  | .ok r => r
  | .error e =>
    { score := 0
      feedback := "Criterion evaluation failed: " ++ e
      max_points := c.points.getD 0 }

/-- Modelled from the spec: the Scoring Engine loop of spec section 4.1 —
evaluate each criterion in declaration order against the submission,
collect the ordered results, and sum scores and point budgets. -/
def evaluate (env : Env) (criteria : List Criterion) (code : String) : GradingReport :=
  let results := criteria.map (fun c => resultOfRun env c code)
  { results := results
    total_score := (results.map (fun r => r.score)).sum
    total_possible := (results.map (fun r => r.max_points)).sum }

/-! ### Claim-side notions

Definitions following the words of the specification, to be compared with
the embedded code above. -/

/-- The elements of the checklist whose dedicated detector fires on the
submission (spec 4.2: satisfied elements). -/
def foundOf (code : String) (es : List String) : List String :=
  es.filter (fun e => decide (pySyntaxDetect e code = some true))

/-- The recognized elements of the checklist whose detector does not fire
(spec 4.2: the missing elements named in the feedback). -/
def missingOf (code : String) (es : List String) : List String :=
  es.filter (fun e => decide (pySyntaxDetect e code = some false))

/-- Signal (a) of spec 4.3: the length-difference ratio. -/
def lengthRatio (actual expected : String) : ℚ :=
  1 - ((Int.natAbs ((actual.length : ℤ) - (expected.length : ℤ)) : ℚ)
        / ((max actual.length expected.length : ℕ) : ℚ))

/-- Signal (c) of spec 4.3: distinct common words over distinct expected words. -/
def wordOverlap (actual expected : String) : ℚ :=
  (interSize (pySplit expected) (pySplit actual) : ℚ) / (setSize (pySplit expected) : ℚ)

/-- The applicable similarity signals of spec 4.3: the length ratio always,
the 0.8 floor when the expected text is a substring of the actual output,
the word overlap when neither word set is empty. -/
def signalList (actual expected : String) : List ℚ :=
  [lengthRatio actual expected]
    ++ (if pyContains actual expected then [4 / 5] else [])
    ++ (if pySplit expected ≠ [] ∧ pySplit actual ≠ [] then [wordOverlap actual expected] else [])

/-- Spec 4.3: the similarity is the maximum of the applicable signals. -/
def simSpec (actual expected : String) : ℚ :=
  (signalList actual expected).foldl max (lengthRatio actual expected)

/-- Whether a character list starts with a digit. -/
def headDigit (cs : List Char) : Bool :=
  match cs with
  | ch :: _ => ch.isDigit
  | [] => false

/-- Whether a character list starts with a decimal point followed by a
digit — the shape that lets `(\.\d+)?` extend a numeric prefix. -/
def startsDecimal (cs : List Char) : Bool :=
  match cs with
  | '.' :: ch :: _ => ch.isDigit
  | _ => false

/-! ### Concrete fixtures for witnesses and counterexamples -/

/-- Oracles for runs that never reach a live collaborator: everything
compiles, the submission prints nothing, the chat call fails. -/
def stubEnv : Env where
  pyCompile := fun _ => .ok ()
  runProgram := fun _ => .ran ""
  aiRespond := fun _ _ => .error "no network"

/-- Oracles for a submission the CPython compiler rejects, as it rejects
the text `def (`. -/
def badCompileEnv : Env where
  pyCompile := fun _ => .error "invalid syntax (<string>, line 1)"
  runProgram := fun _ => .ran ""
  aiRespond := fun _ _ => .error "no network"

/-- Oracles for a submission that loops forever: the 5-second timeout of
`subprocess.run` fires. -/
def timeoutEnv : Env where
  pyCompile := fun _ => .ok ()
  runProgram := fun _ => .timeout
  aiRespond := fun _ _ => .error "no network"

/-- Oracles for a submission that prints `hello world!`. -/
def helloEnv : Env where
  pyCompile := fun _ => .ok ()
  runProgram := fun _ => .ran "hello world!"
  aiRespond := fun _ _ => .error "no network"

/-- Oracles for a submission that prints `hi`. -/
def echoEnv : Env where
  pyCompile := fun _ => .ok ()
  runProgram := fun _ => .ran "hi"
  aiRespond := fun _ _ => .error "no network"

/-- Oracles for a submission that prints only whitespace. -/
def silentEnv : Env where
  pyCompile := fun _ => .ok ()
  runProgram := fun _ => .ran "  \n"
  aiRespond := fun _ _ => .error "no network"

/-- Oracles whose chat call answers with a leading rubric score. -/
def respEnv : Env where
  pyCompile := fun _ => .ok ()
  runProgram := fun _ => .ran ""
  aiRespond := fun _ _ => .ok "85 Great job!"

/-- A criterion of an unknown type with a negative point budget. -/
def cUnknownNeg : Criterion :=
  ⟨some "mystery criterion", some "mystery", some (-3), [], none, false, none⟩

/-- A syntax criterion whose configuration omits `points`. -/
def cNoPoints : Criterion :=
  ⟨some "uses a loop", some "python_syntax", none, [], none, false, none⟩

/-- A plain AI-review criterion. -/
def cAI : Criterion :=
  ⟨some "code quality", some "ai_review", some 10, [], none, false, none⟩

/-- An output criterion expecting `hello`. -/
def cOutput : Criterion :=
  ⟨some "prints hello", some "output_match", some 10, [], some "hello", false, none⟩

/-- A syntax criterion with an empty checklist. -/
def cEmptyElems : Criterion :=
  ⟨some "compiles", some "python_syntax", some 10, [], none, false, none⟩

/-- A syntax criterion requiring a function definition and a while-loop. -/
def cTwoElems : Criterion :=
  ⟨some "structure", some "python_syntax", some 10,
    ["function_definition", "while_loop"], none, false, none⟩

/-- An output criterion with partial credit expecting `hello world`. -/
def cHello : Criterion :=
  ⟨some "greeting", some "output_match", some 10, [], some "hello world", true, none⟩

/-- A syntax criterion whose checklist has only unrecognized names. -/
def cUnrec : Criterion :=
  ⟨some "style", some "python_syntax", some 10, ["recursion", "docstring"], none, false, none⟩

/-- An output criterion whose configuration omits `expected`. -/
def cNoExpected : Criterion :=
  ⟨some "silent run", some "output_match", some 7, [], none, false, none⟩

/-- An AI-review criterion that supplies its own system prompt. -/
def cAIResp : Criterion :=
  ⟨some "quality", some "ai_review", some 100, [], none, false,
    some "You are a strict grader."⟩

/-! ### Helper lemmas -/

theorem string_mk_nil : String.mk [] = "" := rfl

theorem eq_empty_of_length_zero (s : String) (h : s.length = 0) : s = "" := by
  cases s with
  | mk data =>
    rw [show (String.mk data).length = data.length from rfl] at h
    rw [List.length_eq_zero.mp h]

theorem collect_go (code : String) (es : List String) (f m : List String) :
    es.foldl
        (fun fm e =>
          match pySyntaxDetect e code with
          | some true => (fm.1 ++ [e], fm.2)
          | some false => (fm.1, fm.2 ++ [e])
          | none => fm)
        (f, m)
      = (f ++ foundOf code es, m ++ missingOf code es) := by
  induction es generalizing f m with
  | nil => simp [foundOf, missingOf]
  | cons e es ih =>
    simp only [List.foldl_cons]
    cases h : pySyntaxDetect e code with
    | none =>
      rw [ih]
      simp [foundOf, missingOf, List.filter_cons, h]
    | some b =>
      cases b with
      | true =>
        rw [ih]
        simp [foundOf, missingOf, List.filter_cons, h]
      | false =>
        rw [ih]
        simp [foundOf, missingOf, List.filter_cons, h]

theorem collectElements_eq (code : String) (es : List String) :
    collectElements code es = (foundOf code es, missingOf code es) := by
  rw [collectElements, collect_go]
  simp

theorem isDigit_not_space (ch : Char) (h : ch.isDigit = true) : pyIsSpace ch = false := by
  by_contra hs
  rw [Bool.not_eq_false] at hs
  simp only [pyIsSpace, Bool.or_eq_true, decide_eq_true_eq] at hs
  rcases hs with ((((rfl | rfl) | rfl) | rfl) | rfl) | rfl <;> exact absurd h (by decide)

theorem dropWhile_append_of (p : Char → Bool) (ws rest : List Char)
    (h : ws.all p = true) (h2 : ∀ ch, rest.head? = some ch → p ch = false) :
    (ws ++ rest).dropWhile p = rest := by
  induction ws with
  | nil =>
    cases rest with
    | nil => rfl
    | cons ch tl =>
      have := h2 ch rfl
      simp [List.dropWhile_cons, this]
  | cons c ws ih =>
    rw [List.all_cons, Bool.and_eq_true] at h
    simp [List.dropWhile_cons, h.1, ih h.2]

theorem takeWhile_append_of (p : Char → Bool) (ds rest : List Char)
    (h : ds.all p = true) (h2 : ∀ ch, rest.head? = some ch → p ch = false) :
    (ds ++ rest).takeWhile p = ds := by
  induction ds with
  | nil =>
    cases rest with
    | nil => rfl
    | cons ch tl =>
      have := h2 ch rfl
      simp [List.takeWhile_cons, this]
  | cons c ds ih =>
    rw [List.all_cons, Bool.and_eq_true] at h
    simp [List.takeWhile_cons, h.1, ih h.2]

theorem head_none_of_headDigit_false (cs : List Char) (h : headDigit cs = false) :
    ∀ ch, cs.head? = some ch → ch.isDigit = false := by
  intro ch hch
  cases cs with
  | nil => exact absurd hch (by simp)
  | cons c tl =>
    rw [List.head?_cons, Option.some.injEq] at hch
    subst hch
    exact h

theorem parse_noNumber (resp : String)
    (h : headDigit (resp.toList.dropWhile pyIsSpace) = false) :
    parseScoreFeedback resp = (0, resp) := by
  have hds : (resp.toList.dropWhile pyIsSpace).takeWhile Char.isDigit = [] := by
    cases hc : resp.toList.dropWhile pyIsSpace with
    | nil => rfl
    | cons c tl =>
      rw [hc] at h
      have hcd : c.isDigit = false := h
      simp [List.takeWhile_cons, hcd]
  simp only [parseScoreFeedback, hds]
  simp

theorem digitHead_not_space (ds rest : List Char) (hne : ds ≠ [])
    (hds : ds.all Char.isDigit = true) :
    ∀ ch, (ds ++ rest).head? = some ch → pyIsSpace ch = false := by
  intro ch hch
  cases ds with
  | nil => exact absurd rfl hne
  | cons d tl =>
    rw [List.cons_append, List.head?_cons, Option.some.injEq] at hch
    subst hch
    rw [List.all_cons, Bool.and_eq_true] at hds
    exact isDigit_not_space _ hds.1

theorem parse_integer (resp : String) (ws ds rest : List Char)
    (hsplit : resp.toList = ws ++ (ds ++ rest))
    (hws : ws.all pyIsSpace = true) (hne : ds ≠ []) (hds : ds.all Char.isDigit = true)
    (hrest : headDigit rest = false) (hdec : startsDecimal rest = false) :
    parseScoreFeedback resp = ((digitsVal ds : ℚ), String.mk (stripList rest)) := by
  have hdrop : resp.toList.dropWhile pyIsSpace = ds ++ rest := by
    rw [hsplit]
    exact dropWhile_append_of _ _ _ hws (digitHead_not_space ds rest hne hds)
  have htake : (ds ++ rest).takeWhile Char.isDigit = ds :=
    takeWhile_append_of _ _ _ hds (head_none_of_headDigit_false rest hrest)
  simp only [parseScoreFeedback, hdrop, htake, if_neg hne, List.drop_left]
  cases rest with
  | nil => rfl
  | cons c r3 =>
    by_cases hc : c = '.'
    · subst hc
      have hfs : r3.takeWhile Char.isDigit = [] := by
        cases r3 with
        | nil => rfl
        | cons c2 tl =>
          have hd2 : c2.isDigit = false := hdec
          simp [List.takeWhile_cons, hd2]
      simp [hfs]
    · simp [hc]

theorem parse_decimal (resp : String) (ws ds fs rest : List Char)
    (hsplit : resp.toList = ws ++ (ds ++ ('.' :: (fs ++ rest))))
    (hws : ws.all pyIsSpace = true) (hne : ds ≠ []) (hds : ds.all Char.isDigit = true)
    (hfne : fs ≠ []) (hfs : fs.all Char.isDigit = true)
    (hrest : headDigit rest = false) :
    parseScoreFeedback resp
      = ((digitsVal ds : ℚ) + (digitsVal fs : ℚ) / (10 : ℚ) ^ fs.length,
          String.mk (stripList rest)) := by
  have hdrop : resp.toList.dropWhile pyIsSpace = ds ++ ('.' :: (fs ++ rest)) := by
    rw [hsplit]
    exact dropWhile_append_of _ _ _ hws (digitHead_not_space ds _ hne hds)
  have htake : (ds ++ ('.' :: (fs ++ rest))).takeWhile Char.isDigit = ds := by
    refine takeWhile_append_of _ _ _ hds ?_
    intro ch hch
    rw [List.head?_cons, Option.some.injEq] at hch
    subst hch
    decide
  have hfs2 : (fs ++ rest).takeWhile Char.isDigit = fs :=
    takeWhile_append_of _ _ _ hfs (head_none_of_headDigit_false rest hrest)
  simp only [parseScoreFeedback, hdrop, htake, if_neg hne, List.drop_left]
  simp [hfs2, if_neg hfne, List.drop_left]

theorem parseScoreFeedback_nonneg (resp : String) : 0 ≤ (parseScoreFeedback resp).1 := by
  simp only [parseScoreFeedback]
  repeat' split
  all_goals dsimp only
  all_goals positivity

theorem ai_review_nonneg (env : Env) (c : Criterion) (code : String) :
    0 ≤ (ai_review env c code).1 := by
  simp only [ai_review]
  split
  · dsimp only
    norm_num
  · exact parseScoreFeedback_nonneg _

theorem natAbs_sub_le_max (a b : ℕ) : Int.natAbs ((a : ℤ) - (b : ℤ)) ≤ max a b := by
  omega

theorem similarityOf_nonneg (a e : String) : 0 ≤ similarityOf a e := by
  simp only [similarityOf]
  split
  · norm_num
  · rename_i hmax
    have hpos : (0 : ℚ) < ((max a.length e.length : ℕ) : ℚ) := by
      have : 0 < max a.length e.length := Nat.pos_of_ne_zero hmax
      exact_mod_cast this
    have hratio : (0 : ℚ)
        ≤ 1 - ((Int.natAbs ((a.length : ℤ) - (e.length : ℤ)) : ℚ)
                / ((max a.length e.length : ℕ) : ℚ)) := by
      rw [sub_nonneg, div_le_one hpos]
      exact_mod_cast natAbs_sub_le_max a.length e.length
    repeat' split
    all_goals first
      | exact hratio
      | exact le_max_of_le_left hratio
      | exact le_max_of_le_left (le_max_of_le_left hratio)

theorem checkPythonSyntax_nonneg (env : Env) (c : Criterion) (code : String) (p : ℚ)
    (hp : c.points = some p) (h0 : 0 ≤ p) (r : ℚ × String)
    (h : checkPythonSyntax env c code = .ok r) : 0 ≤ r.1 := by
  simp only [checkPythonSyntax, hp, dictGet] at h
  split at h
  · rw [Except.ok.injEq] at h
    subst h
    norm_num
  · rw [Except.ok.injEq] at h
    subst h
    dsimp only
    split
    · exact h0
    · positivity

theorem checkMicrobitSyntax_nonneg (c : Criterion) (code : String) (p : ℚ)
    (hp : c.points = some p) (h0 : 0 ≤ p) (r : ℚ × String)
    (h : checkMicrobitSyntax c code = .ok r) : 0 ≤ r.1 := by
  simp only [checkMicrobitSyntax, hp, dictGet] at h
  rw [Except.ok.injEq] at h
  subst h
  dsimp only
  split
  · exact h0
  · positivity

theorem checkSyntax_nonneg (env : Env) (c : Criterion) (code : String) (p : ℚ)
    (hp : c.points = some p) (h0 : 0 ≤ p) : 0 ≤ (checkSyntax env c code).1 := by
  simp only [checkSyntax]
  split
  · rename_i r heq
    split at heq
    · exact absurd heq (by simp)
    · split at heq
      · exact checkPythonSyntax_nonneg env c code p hp h0 r heq
      · split at heq
        · exact checkMicrobitSyntax_nonneg c code p hp h0 r heq
        · split at heq
          · rw [Except.ok.injEq] at heq
            subst heq
            norm_num
          · rw [Except.ok.injEq] at heq
            subst heq
            norm_num
  · dsimp only
    norm_num

theorem check_output_nonneg (env : Env) (c : Criterion) (code : String) (p : ℚ)
    (hp : c.points = some p) (h0 : 0 ≤ p) : 0 ≤ (check_output env c code).1.1 := by
  simp only [check_output, hp, dictGet]
  split
  · norm_num
  · norm_num
  · split
    · rename_i r heq
      split at heq
      · rw [Except.ok.injEq] at heq
        subst heq
        exact h0
      · split at heq
        · rw [Except.ok.injEq] at heq
          subst heq
          dsimp only
          exact mul_nonneg (similarityOf_nonneg _ _) h0
        · rw [Except.ok.injEq] at heq
          subst heq
          norm_num
    · dsimp only
      norm_num

theorem similarityOf_eq_simSpec (a e : String) (h : ¬ a = e) :
    similarityOf a e = simSpec a e := by
  have hmax : ¬ max a.length e.length = 0 := by
    intro h0
    rw [Nat.max_eq_zero_iff] at h0
    exact h ((eq_empty_of_length_zero a h0.1).trans (eq_empty_of_length_zero e h0.2).symm)
  simp only [similarityOf, simSpec, signalList, lengthRatio, wordOverlap, if_neg hmax]
  by_cases hsub : pyContains a e
    <;> by_cases hew : pySplit e = []
    <;> by_cases haw : pySplit a = []
    <;> simp [hsub, hew, haw, List.foldl, max_self]

/-! ### The claims -/

/-- C1, amended: the recorded score is capped above at `criterion.points`
(line 87 is `min` alone), and it is also nonnegative — not because of any
lower clamp, but because every built-in strategy returns a nonnegative score
when the point budget is nonnegative.  So every successfully produced
`CriterionResult` with `0 ≤ max_points` satisfies `0 ≤ score ≤ max_points`. -/
theorem c1_score_within_budget (env : Env) (c : Criterion) (code : String)
    (r : CriterionResult) (h : (evaluate_criterion env c code).1 = Except.ok r)
    (h0 : 0 ≤ r.max_points) : 0 ≤ r.score ∧ r.score ≤ r.max_points := by
  simp only [evaluate_criterion] at h
  cases hd : c.description with
  | none =>
    rw [hd] at h
    exact absurd h (by simp [dictGet])
  | some d =>
    rw [hd] at h
    cases ht : c.ctype with
    | none =>
      rw [ht] at h
      exact absurd h (by simp [dictGet])
    | some t =>
      rw [ht] at h
      cases hp : c.points with
      | none =>
        rw [hp] at h
        exact absurd h (by simp [dictGet])
      | some p =>
        rw [hp] at h
        simp only [dictGet] at h
        rw [Except.ok.injEq] at h
        subst h
        have h0p : 0 ≤ p := h0
        have hs : 0 ≤ (if t = "ai_review" then (ai_review env c code, false)
            else if t = "python_syntax" || t = "microbit_blocks" || t = "scratch_blocks" then
              (checkSyntax env c code, false)
            else if t = "output_match" then check_output env c code
            else ((0, "Unknown criterion type: " ++ t), false)).1.1 := by
          split
          · exact ai_review_nonneg env c code
          · split
            · exact checkSyntax_nonneg env c code p hp h0p
            · split
              · exact check_output_nonneg env c code p hp h0p
              · norm_num
        exact ⟨le_min hs h0p, min_le_right _ _⟩

/-- C1, counterexample: the claim says a misbehaving strategy score is
clamped into `[0, points]`, but line 87 of grader.py is `min` alone: a
strategy score of -1 against a budget of 10 is recorded as -1, not 0; and a
whole evaluation can record a negative score (a criterion of unknown type
with a negative budget gets `min(0, -3) = -3`). -/
theorem c1_counterexample :
    capScore (-1) 10 = -1 ∧ ¬ (0 ≤ capScore (-1) 10) ∧
    (evaluate_criterion stubEnv cUnknownNeg "x = 1").1
      = Except.ok ⟨-3, "Unknown criterion type: mystery", -3⟩ := by
  refine ⟨by norm_num [capScore], by norm_num [capScore], ?_⟩
  rfl

/-- C1 witness: a concrete AI-review evaluation lands inside the budget. -/
theorem c1_witness :
    0 ≤ (⟨0, "AI review failed: no network", 10⟩ : CriterionResult).score ∧
    (⟨0, "AI review failed: no network", 10⟩ : CriterionResult).score
      ≤ (⟨0, "AI review failed: no network", 10⟩ : CriterionResult).max_points :=
  c1_score_within_budget stubEnv cAI "print(1)" _ rfl (by norm_num)

/-- C2, amended: a criterion that carries its `description`, `type` and
`points` fields never raises — every dispatch path (including unknown types
and failing strategies) yields a result — and the spec-modelled run produces
one result per criterion; but (see the counterexample) a criterion missing
one of those three fields raises a `KeyError` out of
`_evaluate_criterion` to its caller. -/
theorem c2_fielded_never_raises :
    (∀ (env : Env) (c : Criterion) (code d t : String) (p : ℚ),
        c.description = some d → c.ctype = some t → c.points = some p →
        ∃ r, (evaluate_criterion env c code).1 = Except.ok r) ∧
    (∀ (env : Env) (criteria : List Criterion) (code : String),
        (evaluate env criteria code).results.length = criteria.length) := by
  constructor
  · intro env c code d t p hd ht hp
    simp only [evaluate_criterion, hd, ht, hp, dictGet]
    exact ⟨_, rfl⟩
  · intro env criteria code
    simp [evaluate]

/-- C2, counterexample: a criterion whose configuration omits `points`
raises `KeyError: 'points'` out of `_evaluate_criterion` (line 87), even
though the syntax strategy itself had caught its own `KeyError`. -/
theorem c2_counterexample :
    (evaluate_criterion stubEnv cNoPoints "x = 1").1 = Except.error "'points'" ∧
    checkSyntax stubEnv cNoPoints "x = 1" = (0, "Syntax check failed: 'points'") :=
  ⟨rfl, rfl⟩

/-- C2 witness: a fully-fielded criterion evaluates without raising. -/
theorem c2_witness :
    ∃ r, (evaluate_criterion stubEnv cEmptyElems "x = 1").1 = Except.ok r :=
  c2_fielded_never_raises.1 stubEnv cEmptyElems "x = 1" "compiles" "python_syntax" 10
    rfl rfl rfl

/-- C3, amended: the temporary file is removed exactly on the paths where
`subprocess.run` returns normally; on a timeout the handler returns score 0
with the timeout feedback but `os.remove` on line 270 is never reached, so
`temp_code.py` is left behind. -/
theorem c3_cleanup_only_on_return :
    (∀ (env : Env) (c : Criterion) (code out : String),
        env.runProgram code = .ran out → (check_output env c code).2 = false) ∧
    (∀ (env : Env) (c : Criterion) (code : String),
        env.runProgram code = .timeout →
        check_output env c code = ((0, "Code execution timed out"), true)) := by
  constructor
  · intro env c code out hr
    simp only [check_output, hr]
    split <;> rfl
  · intro env c code hr
    simp only [check_output, hr]

/-- C3, counterexample: on the timeout of an infinite loop the score and
feedback are as claimed, but the temporary file is NOT removed — the final
`true` says `temp_code.py` is still on disk after the run. -/
theorem c3_counterexample :
    check_output timeoutEnv cOutput "while True:\n    pass"
      = ((0, "Code execution timed out"), true) := rfl

/-- C3 witness: when the subprocess returns, the temporary file is gone. -/
theorem c3_witness : (check_output echoEnv cOutput "print(1)").2 = false :=
  c3_cleanup_only_on_return.1 echoEnv cOutput "print(1)" "hi" rfl

/-- C4, amended: an empty `required_elements` checklist yields full points
for every submission that compiles; a submission the compiler rejects gets
score 0 with the syntax-error feedback even under an empty checklist. -/
theorem c4_empty_checklist_full_points (env : Env) (c : Criterion) (code : String) (p : ℚ)
    (hcomp : env.pyCompile code = .ok ()) (ht : c.ctype = some "python_syntax")
    (he : c.required_elements = []) (hp : c.points = some p) :
    checkSyntax env c code = (p, "All required elements found") := by
  simp only [checkSyntax, ht, dictGet]
  simp only [checkPythonSyntax, hcomp, hp, dictGet, he, collectElements_eq]
  simp [foundOf, missingOf]

/-- C4, counterexample: the claim says full points regardless of the code's
content, but the text `def (` does not compile, so the empty-checklist
criterion worth 10 points scores 0. -/
theorem c4_counterexample :
    checkSyntax badCompileEnv cEmptyElems "def ("
        = (0, "Syntax error: invalid syntax (<string>, line 1)") ∧
    cEmptyElems.required_elements = [] ∧ cEmptyElems.points = some 10 ∧ (0 : ℚ) ≠ 10 :=
  ⟨rfl, rfl, rfl, by norm_num⟩

/-- C4 witness: a compiling submission under an empty checklist gets its
full 10 points. -/
theorem c4_witness :
    checkSyntax stubEnv cEmptyElems "x = 1" = (10, "All required elements found") :=
  c4_empty_checklist_full_points stubEnv cEmptyElems "x = 1" 10 rfl rfl rfl rfl

/-- C5: for a compiling submission and a nonempty checklist, the score is
(count of satisfied elements / count of required elements) × points, and the
feedback lists the missing elements by name, or states all were found when
none are missing. -/
theorem c5_proportional_scoring (env : Env) (c : Criterion) (code : String) (p : ℚ)
    (hcomp : env.pyCompile code = .ok ()) (ht : c.ctype = some "python_syntax")
    (hne : c.required_elements ≠ []) (hp : c.points = some p) :
    checkSyntax env c code
      = (((foundOf code c.required_elements).length : ℚ)
            / ((c.required_elements).length : ℚ) * p,
          if missingOf code c.required_elements = [] then "All required elements found"
          else "Missing required elements: "
                ++ String.intercalate ", " (missingOf code c.required_elements)) := by
  simp only [checkSyntax, ht, dictGet]
  simp only [checkPythonSyntax, hcomp, hp, dictGet, collectElements_eq, if_neg hne]
  by_cases hm : missingOf code c.required_elements = [] <;> simp [hm]

/-- C5 witness: two required elements with exactly one present — a function
definition but no while-loop — score half of the 10 points, and the feedback
names the missing element. -/
theorem c5_witness :
    checkSyntax stubEnv cTwoElems "def f(x):\n    return x"
      = (5, "Missing required elements: while_loop") := by
  have h := c5_proportional_scoring stubEnv cTwoElems "def f(x):\n    return x" 10
    rfl rfl (by decide) rfl
  have hf : foundOf "def f(x):\n    return x" cTwoElems.required_elements
      = ["function_definition"] := by decide
  have hm : missingOf "def f(x):\n    return x" cTwoElems.required_elements
      = ["while_loop"] := by decide
  rw [h, hf, hm, show cTwoElems.required_elements.length = 2 from rfl,
    show (["function_definition"] : List String).length = 1 from rfl, Prod.ext_iff]
  exact ⟨by norm_num, by decide⟩

/-- C6: on a mismatch with partial credit on, the awarded score is
similarity × points, where the similarity is the maximum of the applicable
signals — the length-difference ratio, the 0.8 floor when the expected text
is a substring of the actual output, and the word overlap when neither word
set is empty — and the feedback names both strings. -/
theorem c6_similarity_score (env : Env) (c : Criterion) (code out : String) (p : ℚ)
    (hr : env.runProgram code = .ran out) (hpc : c.partial_credit = true)
    (hp : c.points = some p)
    (hne : ¬ pyStrip out = pyStrip (c.expected.getD "")) :
    check_output env c code
      = ((simSpec (pyStrip out) (pyStrip (c.expected.getD "")) * p,
            "Output partially matches. Expected: '" ++ pyStrip (c.expected.getD "")
              ++ "', Got: '" ++ pyStrip out ++ "'"),
          false) := by
  simp only [check_output, hr, hpc, hp, dictGet, if_neg hne,
    similarityOf_eq_simSpec _ _ hne]
  simp

/-- C6 witness: expected `hello world` against actual `hello world!` — the
similarity is 11/12 (the length ratio beats the 0.8 substring floor and the
1/2 word overlap), so at least 0.8, and the score is 11/12 × 10 = 55/6. -/
theorem c6_witness :
    (check_output helloEnv cHello "print(1)").1.1 = 55 / 6 ∧ (4 / 5 : ℚ) ≤ 55 / 6 := by
  have h := c6_similarity_score helloEnv cHello "print(1)" "hello world!" 10
    rfl rfl rfl (by decide)
  have hratio : lengthRatio "hello world!" "hello world" = 11 / 12 := by
    simp only [lengthRatio]
    rw [show String.length "hello world!" = 12 from rfl,
      show String.length "hello world" = 11 from rfl]
    norm_num
  have hov : wordOverlap "hello world!" "hello world" = 1 / 2 := by
    simp only [wordOverlap]
    rw [show interSize (pySplit "hello world") (pySplit "hello world!") = 1 from rfl,
      show setSize (pySplit "hello world") = 2 from rfl]
    norm_num
  have hsim : simSpec "hello world!" "hello world" = 11 / 12 := by
    simp only [simSpec, signalList, hratio, hov,
      show pyContains "hello world!" "hello world" = true from rfl,
      if_pos (show pySplit "hello world" ≠ [] ∧ pySplit "hello world!" ≠ [] by decide)]
    simp only [if_true, List.singleton_append, List.cons_append, List.nil_append,
      List.foldl, max_self]
    rw [max_eq_left (by norm_num), max_eq_left (by norm_num)]
  rw [h, show pyStrip "hello world!" = "hello world!" from rfl,
    show pyStrip (cHello.expected.getD "") = "hello world" from rfl]
  refine ⟨?_, by norm_num⟩
  show simSpec "hello world!" "hello world" * 10 = 55 / 6
  rw [hsim]
  norm_num

/-- C7: the adapter reports the transport failure or parses the response;
the parse takes the longest leading numeric prefix — optional whitespace,
a maximal digit run, an optional decimal point with a maximal digit run —
as the score, with everything after it, stripped, as feedback; with no
leading number the score is 0 and the response is kept whole. -/
theorem c7_leading_number_parse :
    (∀ (env : Env) (c : Criterion) (code sp e : String), c.system_prompt = some sp →
        env.aiRespond sp code = .error e →
        ai_review env c code = (0, "AI review failed: " ++ e)) ∧
    (∀ (env : Env) (c : Criterion) (code sp resp : String), c.system_prompt = some sp →
        env.aiRespond sp code = .ok resp →
        ai_review env c code = parseScoreFeedback resp) ∧
    (∀ resp : String, headDigit (resp.toList.dropWhile pyIsSpace) = false →
        parseScoreFeedback resp = (0, resp)) ∧
    (∀ (resp : String) (ws ds rest : List Char), resp.toList = ws ++ (ds ++ rest) →
        ws.all pyIsSpace = true → ds ≠ [] → ds.all Char.isDigit = true →
        headDigit rest = false → startsDecimal rest = false →
        parseScoreFeedback resp = ((digitsVal ds : ℚ), String.mk (stripList rest))) ∧
    (∀ (resp : String) (ws ds fs rest : List Char),
        resp.toList = ws ++ (ds ++ ('.' :: (fs ++ rest))) →
        ws.all pyIsSpace = true → ds ≠ [] → ds.all Char.isDigit = true →
        fs ≠ [] → fs.all Char.isDigit = true → headDigit rest = false →
        parseScoreFeedback resp
          = ((digitsVal ds : ℚ) + (digitsVal fs : ℚ) / (10 : ℚ) ^ fs.length,
              String.mk (stripList rest))) := by
  refine ⟨?_, ?_, parse_noNumber, parse_integer, parse_decimal⟩
  · intro env c code sp e hsp hr
    simp [ai_review, hsp, hr]
  · intro env c code sp resp hsp hr
    simp [ai_review, hsp, hr]

/-- C7 witness: response `85 Great job!` yields score 85 with feedback
`Great job!`; response `Not sure` yields score 0 with the response kept. -/
theorem c7_witness :
    ai_review respEnv cAIResp "print(1)" = (85, "Great job!") ∧
    parseScoreFeedback "Not sure" = (0, "Not sure") := by
  constructor
  · have h2 := c7_leading_number_parse.2.1 respEnv cAIResp "print(1)"
      "You are a strict grader." "85 Great job!" rfl rfl
    have h4 := c7_leading_number_parse.2.2.2.1 "85 Great job!"
      [] ['8', '5'] (' ' :: "Great job!".toList)
      (by decide) (by decide) (by decide) (by decide) (by decide) (by decide)
    rw [h2, h4]
    decide
  · exact c7_leading_number_parse.2.2.1 "Not sure" (by decide)

/-- C8: evaluation is deterministic — with the oracles fixed as functions,
two runs over the same ordered criteria and submission produce reports with
the same ordered results and the same totals. -/
theorem c8_deterministic (env : Env) (criteria : List Criterion) (code : String)
    (r1 r2 : GradingReport) (h1 : r1 = evaluate env criteria code)
    (h2 : r2 = evaluate env criteria code) :
    r1.results = r2.results ∧ r1.total_score = r2.total_score
      ∧ r1.total_possible = r2.total_possible := by
  subst h1
  subst h2
  exact ⟨rfl, rfl, rfl⟩

/-- C8 witness: two runs over a three-criterion assignment coincide. -/
theorem c8_witness :
    (evaluate stubEnv [cAI, cTwoElems, cNoExpected] "x = 1").results
        = (evaluate stubEnv [cAI, cTwoElems, cNoExpected] "x = 1").results ∧
    (evaluate stubEnv [cAI, cTwoElems, cNoExpected] "x = 1").total_score
        = (evaluate stubEnv [cAI, cTwoElems, cNoExpected] "x = 1").total_score ∧
    (evaluate stubEnv [cAI, cTwoElems, cNoExpected] "x = 1").total_possible
        = (evaluate stubEnv [cAI, cTwoElems, cNoExpected] "x = 1").total_possible :=
  c8_deterministic stubEnv [cAI, cTwoElems, cNoExpected] "x = 1" _ _ rfl rfl

/-- C9: a compiling submission against a nonempty checklist made only of
unrecognized names scores 0 — each unrecognized name stays in the
denominator but is never found — while the feedback claims all required
elements were found, since only recognized-but-absent names are reported
missing. -/
theorem c9_unrecognized_elements (env : Env) (c : Criterion) (code : String) (p : ℚ)
    (hcomp : env.pyCompile code = .ok ()) (ht : c.ctype = some "python_syntax")
    (hne : c.required_elements ≠ []) (hp : c.points = some p)
    (hall : ∀ e ∈ c.required_elements, pySyntaxDetect e code = none) :
    checkSyntax env c code = (0, "All required elements found") := by
  have hfound : foundOf code c.required_elements = [] := by
    simp only [foundOf, List.filter_eq_nil_iff]
    intro e he
    simp [hall e he]
  have hmiss : missingOf code c.required_elements = [] := by
    simp only [missingOf, List.filter_eq_nil_iff]
    intro e he
    simp [hall e he]
  simp only [checkSyntax, ht, dictGet]
  simp only [checkPythonSyntax, hcomp, hp, dictGet, collectElements_eq, hfound, hmiss,
    if_neg hne]
  norm_num

/-- C9 witness: a checklist of `recursion` and `docstring` (no detectors)
against compiling code scores 0 of 10 with the all-found feedback. -/
theorem c9_witness :
    checkSyntax stubEnv cUnrec "x = 1" = (0, "All required elements found") :=
  c9_unrecognized_elements stubEnv cUnrec "x = 1" 10 rfl rfl (by decide) rfl (by decide)

/-- C10: an `output_match` criterion whose configuration omits `expected`
compares against the empty string, so a run whose standard output strips to
nothing gets full points with the output-matches feedback. -/
theorem c10_missing_expected (env : Env) (c : Criterion) (code out : String) (p : ℚ)
    (hr : env.runProgram code = .ran out) (he : c.expected = none)
    (hw : pyStrip out = "") (hp : c.points = some p) :
    check_output env c code = ((p, "Output matches expected result"), false) := by
  have hexp : pyStrip ((none : Option String).getD "") = "" := rfl
  simp only [check_output, hr, he, hexp, hw, hp, dictGet]
  simp

/-- C10 witness: whitespace-only output against a criterion with no
`expected` field earns its full 7 points. -/
theorem c10_witness :
    check_output silentEnv cNoExpected "print()"
      = ((7, "Output matches expected result"), false) :=
  c10_missing_expected silentEnv cNoExpected "print()" "  \n" 7 rfl rfl (by decide) rfl

end CodioGrader
